import Mathlib

/-!
Verification of the abstract-scoring core of the clinical-score literature
mining pipeline (src/indicator.py, src/score.py).

Python semantics are shallowly embedded:
  - Python strings are Lean `String`; `str.lower()` is `strToLower`, which maps
    `Char.toLower` over the characters (the ASCII case mapping, which agrees
    with Python on the ASCII lexicon terms involved);
  - `re.search(re.escape(x), t) is not None` is literal substring containment
    `containsSub x t` (escaping every metacharacter makes the pattern match
    exactly the literal string `x`);
  - Python `set`s of string literals are Lean `List String` with no duplicate
    elements; iteration such as `sum(w in text for w in S)` is `List.countP`;
  - the external collaborators (the spaCy pipeline behind `_normalize`,
    `ast.literal_eval`, `pandas.read_csv`) are oracle parameters, so theorems
    quantify over every possible behavior of the collaborator;
  - fallible Python code (exceptions such as TypeError / KeyError / IndexError
    reaching the caller) is `Except String`.
-/

/-- Lowercasing of a single character, `Char.toLower` from core Lean: the
ASCII mapping used by Python `str.lower` on the ASCII strings at play. -/
def strToLower (s : String) : String := ⟨s.data.map Char.toLower⟩

/-- Literal substring containment: the embedding of
`re.search(re.escape(needle), haystack) is not None` from
`analyze_relation` (src/indicator.py lines 133-134), where `re.escape`
makes every regex metacharacter match itself, so the search succeeds
exactly when `needle` occurs verbatim inside `haystack`. -/
def containsSub (needle haystack : String) : Bool :=
  decide (needle.data <:+: haystack.data)

/-! ## Lexicon tables (src/indicator.py lines 28-105)

Python `set` literals, embedded as duplicate-free `List String`. -/

def CLINICAL_STUDY : List String :=
  ["randomized", "randomised", "placebo", "double-blind", "single-blind",
   "controlled", "trial", "pragmatic trial", "phase i", "phase ii",
   "phase iii", "phase iv", "clinical study", "clinical trial", "multicenter",
   "interventional", "crossover", "parallel group", "allocation",
   "intention-to-treat", "efficacy", "endpoint", "primary outcome",
   "progression free survival", "overall survival"]

def CASE_REPORT : List String :=
  ["case report", "case reports", "case series", "case study", "case studies",
   "single patient", "n-of-1"]

def ANIMAL_EVIDENCE : List String :=
  ["in vivo", "xenograft", "patient-derived xenograft", "PDX", "orthotopic",
   "murine", "mouse", "mice", "rat", "rats", "zebrafish", "Drosophila",
   "C. elegans", "animal model", "live animal"]

def CELL_LINES : List String :=
  ["in vitro", "cell line", "cultured cells", "cell culture", "monolayer",
   "3D culture", "organoid", "primary cells", "immortalized cell line",
   "transfected cell line"]

def IMAGING_EVIDENCE : List String :=
  ["MRI", "magnetic resonance imaging", "CT", "computed tomography", "PET",
   "positron emission tomography", "ultrasound", "radiography",
   "fluorescence microscopy", "confocal microscopy", "histopathology",
   "histological imaging", "digital image analysis", "quantitative imaging",
   "imaging biomarkers"]

def RETROSPECTIVE_STUDY : List String :=
  ["retrospective study", "retrospective analysis", "retrospective review",
   "chart review", "registry data", "historical cohort",
   "medical record review", "retrospective cohort"]

def DIRECT_INTERACTION : List String :=
  ["inhibit", "suppress", "block", "antagonize", "antagonist",
   "activate", "agonist", "stimulate",
   "abrogate", "attenuate", "neutralize", "potentiate", "enhance",
   "impair", "diminish", "abolish"]

def BINDING_INTERACTION : List String :=
  ["bind", "target", "interact", "affinity",
   "associate", "association", "complex", "recruit", "sequester",
   "dock", "occupy", "ligand"]

def REGULATION_CHANGES : List String :=
  ["upregulate", "downregulate", "overexpress", "silence",
   "knockdown", "knockout", "crispr",
   "knockin", "dysregulate", "downmodulate", "repress", "repression",
   "transactivate", "transactivation", "deplete", "depletion",
   "induce", "induction"]

def SENSITIVITY_RESISTANCE : List String :=
  ["sensitivity", "sensitive", "sensitize",
   "resistant", "resistance", "resensitize",
   "synergy", "synergistic",
   "tolerant", "tolerance", "refractory",
   "respond", "responder", "nonresponder", "response",
   "hypersensitive"]

def PHARMACOGENOMIC_SIGNALS : List String :=
  ["metabolize", "substrate", "induce", "inducer", "inhibit",
   "polymorphism", "variant", "mutation", "mutant",
   "allele", "genotype", "haplotype", "isoform",
   "splice", "wildtype", "germline", "somatic",
   "clearance", "exposure", "auc", "cmax", "tmax"]

/-- The six document-level indicator lexicons of `analyze_relation`, in the
order the source scores them. -/
def INDICATOR_LEXICONS : List (List String) :=
  [CLINICAL_STUDY, CASE_REPORT, ANIMAL_EVIDENCE, CELL_LINES,
   IMAGING_EVIDENCE, RETROSPECTIVE_STUDY]

/-! ## Indicator scorer (src/indicator.py lines 128-154) -/

/-- The six per-category counts plus the derived total, the value of the
`indicators` dict built by `analyze_relation`. -/
structure IndicatorScores where
  clinical_study : Nat
  case_report : Nat
  animal_evidence : Nat
  cell_line : Nat
  imaging_evidence : Nat
  retrospective : Nat
  unweighted_total : Nat
deriving DecidableEq, Repr

/-- The five per-category counts plus the derived total, the value of the
`indicators` dict built by `analyze_relation_interaction`. -/
structure InteractionScores where
  direct_interaction : Nat
  binding_interaction : Nat
  regulation_changes : Nat
  sensitivity_resistance : Nat
  pharmacogenomic_signals : Nat
  unweighted_total : Nat
deriving DecidableEq, Repr

/-- The second component of a scorer result. Python returns a heterogeneous
tuple: the float literal `0.0` when the mention gate fails (modelled by
`floatZero`), or a per-category count dict. -/
inductive ScoreValue where
  | floatZero : ScoreValue
  | indicator : IndicatorScores → ScoreValue
  | interaction : InteractionScores → ScoreValue
deriving DecidableEq, Repr

/-- Embedding of `analyze_relation` (src/indicator.py lines 128-154):
lowercase the abstract, gate on literal co-occurrence of the lowercased drug
and gene names, then count each lexicon's terms occurring as substrings. -/
def analyze_relation (drug gene abstract : String) : String × ScoreValue :=
  let text := strToLower abstract
  let drug_present := containsSub (strToLower drug) text
  let gene_present := containsSub (strToLower gene) text
  if ¬(drug_present && gene_present) then ("not_evaluated", ScoreValue.floatZero)
  else
    let clinical_study := List.countP (fun word => containsSub word text) CLINICAL_STUDY
    let case_report := List.countP (fun word => containsSub word text) CASE_REPORT
    let animal_evidence := List.countP (fun word => containsSub word text) ANIMAL_EVIDENCE
    let cell_line := List.countP (fun word => containsSub word text) CELL_LINES
    let imaging_evidence := List.countP (fun word => containsSub word text) IMAGING_EVIDENCE
    let retrospective := List.countP (fun word => containsSub word text) RETROSPECTIVE_STUDY
    let unweighted_total := clinical_study + case_report + animal_evidence +
      cell_line + imaging_evidence + retrospective
    let label := if unweighted_total > 0 then "indicator_evidence" else "no_indicator_evidence"
    (label, ScoreValue.indicator
      { clinical_study := clinical_study
        case_report := case_report
        animal_evidence := animal_evidence
        cell_line := cell_line
        imaging_evidence := imaging_evidence
        retrospective := retrospective
        unweighted_total := unweighted_total })

/-! ## Claim-side counting functions

These follow the wording of the claims ("the number of distinct lexicon terms
of that category occurring as a substring of the lowercased abstract"), to be
compared with the counts the source computes. -/

/-- Number of distinct terms of the lexicon occurring as a substring of the
lowercased abstract. -/
def distinctTermHits (lex : List String) (abstract : String) : Nat :=
  (lex.toFinset.filter (fun w => containsSub w (strToLower abstract) = true)).card

/-- Sum of the six per-category distinct-hit counts. -/
def indicatorTotalSpec (abstract : String) : Nat :=
  distinctTermHits CLINICAL_STUDY abstract + distinctTermHits CASE_REPORT abstract +
  distinctTermHits ANIMAL_EVIDENCE abstract + distinctTermHits CELL_LINES abstract +
  distinctTermHits IMAGING_EVIDENCE abstract + distinctTermHits RETROSPECTIVE_STUDY abstract

/-- Presence-based counting over a duplicate-free lexicon equals the number of
distinct lexicon terms satisfying the predicate. -/
theorem countP_eq_card_filter_toFinset (p : String → Bool) (lex : List String)
    (hnd : lex.Nodup) :
    List.countP p lex = (lex.toFinset.filter (fun w => p w = true)).card := by
  rw [List.countP_eq_length_filter, ← List.toFinset_filter,
    List.toFinset_card_of_nodup (hnd.filter p)]

theorem clinical_study_nodup : CLINICAL_STUDY.Nodup := by decide
theorem case_report_nodup : CASE_REPORT.Nodup := by decide
theorem animal_evidence_nodup : ANIMAL_EVIDENCE.Nodup := by decide
theorem cell_lines_nodup : CELL_LINES.Nodup := by decide
theorem imaging_evidence_nodup : IMAGING_EVIDENCE.Nodup := by decide
theorem retrospective_study_nodup : RETROSPECTIVE_STUDY.Nodup := by decide

/-- C1. Mention gate: `analyze_relation` returns exactly the sentinel pair
`("not_evaluated", 0.0)` — not a populated per-category mapping — precisely
when the lowercased drug name or the lowercased gene name fails to occur as a
literal substring of the lowercased abstract (each name is regex-escaped in
the source, so it matches only literally, which the embedding renders as
literal substring containment). -/
theorem analyze_relation_mention_gate (drug gene abstract : String) :
    analyze_relation drug gene abstract = ("not_evaluated", ScoreValue.floatZero) ↔
      (containsSub (strToLower drug) (strToLower abstract) = false ∨
       containsSub (strToLower gene) (strToLower abstract) = false) := by
  unfold analyze_relation
  by_cases h : (containsSub (strToLower drug) (strToLower abstract) &&
      containsSub (strToLower gene) (strToLower abstract)) = true
  · rw [if_neg (by simp [h])]
    simp only [Bool.and_eq_true] at h
    constructor
    · intro hcontra
      exact absurd (congrArg Prod.snd hcontra) (by simp)
    · rintro (hc | hc) <;> simp [hc] at h
  · rw [if_pos (by simpa using h)]
    simp only [Bool.and_eq_true, not_and] at h
    constructor
    · intro _
      rcases Bool.eq_false_or_eq_true (containsSub (strToLower drug) (strToLower abstract)) with hd | hd
      · exact Or.inr (Bool.eq_false_iff.mpr (fun hg => (h hd) hg))
      · exact Or.inl hd
    · intro _
      rfl

/-- C2. Indicator scorer: when the mention gate passes, each of the six
category counts is the number of distinct lexicon terms of that category
occurring as a substring of the lowercased abstract (each term counted at most
once regardless of frequency), `unweighted_total` is their sum, and the label
is `indicator_evidence` exactly when that sum is strictly positive, else
`no_indicator_evidence`. -/
theorem analyze_relation_scores (drug gene abstract : String)
    (hd : containsSub (strToLower drug) (strToLower abstract) = true)
    (hg : containsSub (strToLower gene) (strToLower abstract) = true) :
    analyze_relation drug gene abstract =
      ((if 0 < indicatorTotalSpec abstract then "indicator_evidence"
        else "no_indicator_evidence"),
       ScoreValue.indicator
         { clinical_study := distinctTermHits CLINICAL_STUDY abstract
           case_report := distinctTermHits CASE_REPORT abstract
           animal_evidence := distinctTermHits ANIMAL_EVIDENCE abstract
           cell_line := distinctTermHits CELL_LINES abstract
           imaging_evidence := distinctTermHits IMAGING_EVIDENCE abstract
           retrospective := distinctTermHits RETROSPECTIVE_STUDY abstract
           unweighted_total := indicatorTotalSpec abstract }) := by
  unfold analyze_relation
  rw [if_neg (by simp [hd, hg])]
  have e1 := countP_eq_card_filter_toFinset
    (fun word => containsSub word (strToLower abstract)) CLINICAL_STUDY clinical_study_nodup
  have e2 := countP_eq_card_filter_toFinset
    (fun word => containsSub word (strToLower abstract)) CASE_REPORT case_report_nodup
  have e3 := countP_eq_card_filter_toFinset
    (fun word => containsSub word (strToLower abstract)) ANIMAL_EVIDENCE animal_evidence_nodup
  have e4 := countP_eq_card_filter_toFinset
    (fun word => containsSub word (strToLower abstract)) CELL_LINES cell_lines_nodup
  have e5 := countP_eq_card_filter_toFinset
    (fun word => containsSub word (strToLower abstract)) IMAGING_EVIDENCE imaging_evidence_nodup
  have e6 := countP_eq_card_filter_toFinset
    (fun word => containsSub word (strToLower abstract)) RETROSPECTIVE_STUDY
    retrospective_study_nodup
  simp only [distinctTermHits, indicatorTotalSpec, ← e1, ← e2, ← e3, ← e4, ← e5, ← e6,
    distinctTermHits]

set_option maxRecDepth 40000

/-- Witness for C2 at the spec's Scenario 1: both names occur, three
clinical-study terms hit, and the label is `indicator_evidence`. -/
theorem analyze_relation_scores_witness :
    containsSub (strToLower "Drug X") (strToLower "This randomized double-blind trial evaluated Drug X in patients with Gene Y mutations") = true ∧
    analyze_relation "Drug X" "Gene Y" "This randomized double-blind trial evaluated Drug X in patients with Gene Y mutations" =
      ((if 0 < indicatorTotalSpec "This randomized double-blind trial evaluated Drug X in patients with Gene Y mutations" then "indicator_evidence"
        else "no_indicator_evidence"),
       ScoreValue.indicator
         { clinical_study := distinctTermHits CLINICAL_STUDY "This randomized double-blind trial evaluated Drug X in patients with Gene Y mutations"
           case_report := distinctTermHits CASE_REPORT "This randomized double-blind trial evaluated Drug X in patients with Gene Y mutations"
           animal_evidence := distinctTermHits ANIMAL_EVIDENCE "This randomized double-blind trial evaluated Drug X in patients with Gene Y mutations"
           cell_line := distinctTermHits CELL_LINES "This randomized double-blind trial evaluated Drug X in patients with Gene Y mutations"
           imaging_evidence := distinctTermHits IMAGING_EVIDENCE "This randomized double-blind trial evaluated Drug X in patients with Gene Y mutations"
           retrospective := distinctTermHits RETROSPECTIVE_STUDY "This randomized double-blind trial evaluated Drug X in patients with Gene Y mutations"
           unweighted_total := indicatorTotalSpec "This randomized double-blind trial evaluated Drug X in patients with Gene Y mutations" }) :=
  ⟨by decide,
   analyze_relation_scores "Drug X" "Gene Y"
     "This randomized double-blind trial evaluated Drug X in patients with Gene Y mutations"
     (by decide) (by decide)⟩

/-! ## Interaction scorer (src/indicator.py lines 10-14 and 108-126)

The spaCy pipeline `nlp` is an external collaborator; it is an oracle
parameter producing, for a given text, the document's tokens with their
lemma, stop-word flag and alphabetic flag. -/

/-- A spaCy token as consumed by `_normalize`: its lemma and the two flags
the filter reads. -/
structure SpacyToken where
  lemma_ : String
  is_stop : Bool
  is_alpha : Bool
deriving DecidableEq, Repr

/-- Embedding of `_normalize` (src/indicator.py lines 12-14): run the spaCy
pipeline on the lowercased text and keep the lemma of every alphabetic
non-stopword token. -/
def _normalize (nlp : String → List SpacyToken) (text : String) : List String :=
  ((nlp (strToLower text)).filter
    (fun token => !token.is_stop && token.is_alpha)).map (fun token => token.lemma_)

/-- Embedding of `analyze_relation_interaction` (src/indicator.py lines
108-126): build the deduplicated lemma set of the lowercased abstract, count
per category the lemmas present in it, and derive the label. The `gene`
parameter is bound but never read, as in the source. -/
def analyze_relation_interaction (nlp : String → List SpacyToken)
    (gene abstract : String) : String × InteractionScores :=
  let text := strToLower abstract
  let lemmas := _normalize nlp text
  let lemma_set := lemmas.dedup
  let direct_interaction := List.countP (fun l => lemma_set.contains l) DIRECT_INTERACTION
  let binding_interaction := List.countP (fun l => lemma_set.contains l) BINDING_INTERACTION
  let regulation_changes := List.countP (fun l => lemma_set.contains l) REGULATION_CHANGES
  let sensitivity_resistance := List.countP (fun l => lemma_set.contains l) SENSITIVITY_RESISTANCE
  let pharmacogenomic_signals := List.countP (fun l => lemma_set.contains l) PHARMACOGENOMIC_SIGNALS
  let unweighted_total := direct_interaction + binding_interaction +
    regulation_changes + sensitivity_resistance + pharmacogenomic_signals
  let label := if unweighted_total > 0 then "interaction_evidence" else "no_interaction_evidence"
  (label,
   { direct_interaction := direct_interaction
     binding_interaction := binding_interaction
     regulation_changes := regulation_changes
     sensitivity_resistance := sensitivity_resistance
     pharmacogenomic_signals := pharmacogenomic_signals
     unweighted_total := unweighted_total })

/-- Number of distinct lemmas of the lexicon present in the deduplicated set
of lemmatized, alphabetic, non-stopword tokens of the lowercased abstract;
this follows the wording of the claim about the interaction scorer. -/
def distinctLemmaHits (lex : List String) (nlp : String → List SpacyToken)
    (abstract : String) : Nat :=
  (lex.toFinset.filter (fun w => w ∈ (_normalize nlp (strToLower abstract)).dedup)).card

/-- Sum of the five per-category distinct-lemma counts. -/
def interactionTotalSpec (nlp : String → List SpacyToken) (abstract : String) : Nat :=
  distinctLemmaHits DIRECT_INTERACTION nlp abstract +
  distinctLemmaHits BINDING_INTERACTION nlp abstract +
  distinctLemmaHits REGULATION_CHANGES nlp abstract +
  distinctLemmaHits SENSITIVITY_RESISTANCE nlp abstract +
  distinctLemmaHits PHARMACOGENOMIC_SIGNALS nlp abstract

theorem direct_interaction_nodup : DIRECT_INTERACTION.Nodup := by decide
theorem binding_interaction_nodup : BINDING_INTERACTION.Nodup := by decide
theorem regulation_changes_nodup : REGULATION_CHANGES.Nodup := by decide
theorem sensitivity_resistance_nodup : SENSITIVITY_RESISTANCE.Nodup := by decide
theorem pharmacogenomic_signals_nodup : PHARMACOGENOMIC_SIGNALS.Nodup := by decide

/-- Membership-based counting over a duplicate-free lexicon equals the number
of distinct lexicon lemmas present in the token set. -/
theorem countP_contains_eq_card (lex : List String) (hnd : lex.Nodup) (S : List String) :
    List.countP (fun l => S.contains l) lex =
      (lex.toFinset.filter (fun w => w ∈ S)).card := by
  rw [countP_eq_card_filter_toFinset (fun l => S.contains l) lex hnd]
  congr 1
  apply Finset.filter_congr
  intro x _
  simp [List.elem_iff]

/-- C3. Interaction scorer: for every behavior of the spaCy collaborator, each
of the five category counts is the number of distinct category lemmas present
in the deduplicated set of lemmatized, alphabetic, non-stopword tokens of the
lowercased abstract (presence-based, not frequency-based), `unweighted_total`
is their sum, and the label is `interaction_evidence` exactly when that sum is
strictly positive, else `no_interaction_evidence`. -/
theorem analyze_relation_interaction_scores (nlp : String → List SpacyToken)
    (gene abstract : String) :
    analyze_relation_interaction nlp gene abstract =
      ((if 0 < interactionTotalSpec nlp abstract then "interaction_evidence"
        else "no_interaction_evidence"),
       { direct_interaction := distinctLemmaHits DIRECT_INTERACTION nlp abstract
         binding_interaction := distinctLemmaHits BINDING_INTERACTION nlp abstract
         regulation_changes := distinctLemmaHits REGULATION_CHANGES nlp abstract
         sensitivity_resistance := distinctLemmaHits SENSITIVITY_RESISTANCE nlp abstract
         pharmacogenomic_signals := distinctLemmaHits PHARMACOGENOMIC_SIGNALS nlp abstract
         unweighted_total := interactionTotalSpec nlp abstract }) := by
  unfold analyze_relation_interaction
  have e1 := countP_contains_eq_card DIRECT_INTERACTION direct_interaction_nodup
    ((_normalize nlp (strToLower abstract)).dedup)
  have e2 := countP_contains_eq_card BINDING_INTERACTION binding_interaction_nodup
    ((_normalize nlp (strToLower abstract)).dedup)
  have e3 := countP_contains_eq_card REGULATION_CHANGES regulation_changes_nodup
    ((_normalize nlp (strToLower abstract)).dedup)
  have e4 := countP_contains_eq_card SENSITIVITY_RESISTANCE sensitivity_resistance_nodup
    ((_normalize nlp (strToLower abstract)).dedup)
  have e5 := countP_contains_eq_card PHARMACOGENOMIC_SIGNALS pharmacogenomic_signals_nodup
    ((_normalize nlp (strToLower abstract)).dedup)
  simp only [distinctLemmaHits, interactionTotalSpec, ← e1, ← e2, ← e3, ← e4, ← e5,
    distinctLemmaHits]

/-- C8. The gene argument is inert in interaction mode: the scorer's result
does not depend on it, no mention gate exists in this mode, and the label
`not_evaluated` is never produced. -/
theorem analyze_relation_interaction_gene_inert (nlp : String → List SpacyToken)
    (g1 g2 abstract : String) :
    analyze_relation_interaction nlp g1 abstract =
      analyze_relation_interaction nlp g2 abstract ∧
    (analyze_relation_interaction nlp g1 abstract).1 ≠ "not_evaluated" := by
  refine ⟨rfl, ?_⟩
  unfold analyze_relation_interaction
  dsimp only
  split <;> decide

/-! ## C9: uppercase lexicon terms can never match the lowercased abstract -/

theorem uint32_le_iff {a b : UInt32} : a ≤ b ↔ a.toNat ≤ b.toNat := by
  rw [UInt32.le_def, BitVec.le_def]
  rfl

theorem char_isUpper_iff (c : Char) : c.isUpper = true ↔ 65 ≤ c.toNat ∧ c.toNat ≤ 90 := by
  simp only [Char.isUpper, Bool.and_eq_true, decide_eq_true_eq]
  constructor
  · rintro ⟨h1, h2⟩
    exact ⟨uint32_le_iff.mp h1, uint32_le_iff.mp h2⟩
  · rintro ⟨h1, h2⟩
    exact ⟨uint32_le_iff.mpr h1, uint32_le_iff.mpr h2⟩

/-- Lowercasing never produces an uppercase ASCII character. -/
theorem char_toLower_isUpper (c : Char) : (Char.toLower c).isUpper = false := by
  rw [Bool.eq_false_iff]
  intro hu
  rw [char_isUpper_iff] at hu
  unfold Char.toLower at hu
  by_cases h : c.toNat ≥ 65 ∧ c.toNat ≤ 90
  · rw [if_pos h] at hu
    have hv : (c.toNat + 32).isValidChar := by
      left
      omega
    rw [Char.ofNat, dif_pos hv] at hu
    have ht : (Char.ofNatAux (c.toNat + 32) hv).toNat = c.toNat + 32 := rfl
    rw [ht] at hu
    omega
  · rw [if_neg h] at hu
    exact h ⟨hu.1, hu.2⟩

/-- A string containing an uppercase character is never a substring of a
lowercased string. -/
theorem upperChar_not_infix (w : String) (c : Char) (hc : c ∈ w.data)
    (hu : c.isUpper = true) (t : String) :
    containsSub w (strToLower t) = false := by
  unfold containsSub
  rw [decide_eq_false_iff_not]
  intro hinf
  have hmem : c ∈ (strToLower t).data := hinf.subset hc
  have : c ∈ t.data.map Char.toLower := hmem
  rcases List.mem_map.mp this with ⟨d, _, hd⟩
  rw [← hd, char_toLower_isUpper d] at hu
  exact Bool.false_ne_true hu

/-- The imaging count can use at most 12 of the 15 imaging terms: the three
uppercase terms never match a lowercased text. -/
theorem imaging_count_le (abstract : String) :
    List.countP (fun word => containsSub word (strToLower abstract)) IMAGING_EVIDENCE ≤ 12 := by
  have hM := upperChar_not_infix "MRI" 'M' (by decide) (by decide) abstract
  have hC := upperChar_not_infix "CT" 'C' (by decide) (by decide) abstract
  have hP := upperChar_not_infix "PET" 'P' (by decide) (by decide) abstract
  have hsub : List.Sublist ["MRI", "CT", "PET"] IMAGING_EVIDENCE := by decide
  have h3 : List.countP
      (fun a => decide ¬(containsSub a (strToLower abstract) = true))
      ["MRI", "CT", "PET"] = 3 := by
    simp [List.countP_cons, hM, hC, hP]
  have hle := List.Sublist.countP_le
    (fun a => decide ¬(containsSub a (strToLower abstract) = true)) hsub
  have hlen := List.length_eq_countP_add_countP
    (fun word => containsSub word (strToLower abstract)) IMAGING_EVIDENCE
  have h15 : IMAGING_EVIDENCE.length = 15 := by decide
  omega

/-- The animal-evidence count can use at most 12 of the 15 animal terms: the
three uppercase terms never match a lowercased text. -/
theorem animal_count_le (abstract : String) :
    List.countP (fun word => containsSub word (strToLower abstract)) ANIMAL_EVIDENCE ≤ 12 := by
  have hX := upperChar_not_infix "PDX" 'P' (by decide) (by decide) abstract
  have hD := upperChar_not_infix "Drosophila" 'D' (by decide) (by decide) abstract
  have hE := upperChar_not_infix "C. elegans" 'C' (by decide) (by decide) abstract
  have hsub : List.Sublist ["PDX", "Drosophila", "C. elegans"] ANIMAL_EVIDENCE := by decide
  have h3 : List.countP
      (fun a => decide ¬(containsSub a (strToLower abstract) = true))
      ["PDX", "Drosophila", "C. elegans"] = 3 := by
    simp [List.countP_cons, hX, hD, hE]
  have hle := List.Sublist.countP_le
    (fun a => decide ¬(containsSub a (strToLower abstract) = true)) hsub
  have hlen := List.length_eq_countP_add_countP
    (fun word => containsSub word (strToLower abstract)) ANIMAL_EVIDENCE
  have h15 : ANIMAL_EVIDENCE.length = 15 := by decide
  omega

/-- C9. Uppercase lexicon terms are unreachable: `analyze_relation` lowercases
the abstract but compares lexicon terms verbatim, so every indicator lexicon
term containing an uppercase character matches no abstract whatsoever; hence
the imaging count is at most 12 of its 15 terms and the animal-evidence count
is at most 12 of its 15 terms. -/
theorem uppercase_lexicon_terms_unreachable :
    (∀ w : String, (∃ lex ∈ INDICATOR_LEXICONS, w ∈ lex) →
      w.data.any Char.isUpper = true →
      ∀ abstract : String, containsSub w (strToLower abstract) = false) ∧
    (∀ drug gene abstract label s,
      analyze_relation drug gene abstract = (label, ScoreValue.indicator s) →
      s.imaging_evidence ≤ 12 ∧ s.animal_evidence ≤ 12) ∧
    IMAGING_EVIDENCE.length = 15 ∧ ANIMAL_EVIDENCE.length = 15 := by
  refine ⟨?_, ?_, by decide, by decide⟩
  · intro w _ hup abstract
    rcases List.any_eq_true.mp hup with ⟨c, hc, hu⟩
    exact upperChar_not_infix w c hc hu abstract
  · intro drug gene abstract label s h
    unfold analyze_relation at h
    dsimp only at h
    split at h
    · simp at h
    · rw [Prod.mk.injEq] at h
      rcases h with ⟨-, h2⟩
      rw [ScoreValue.indicator.injEq] at h2
      rw [← h2]
      exact ⟨imaging_count_le abstract, animal_count_le abstract⟩

/-! ## Drug-term parser (src/indicator.py lines 16-24)

`ast.literal_eval` is an external collaborator: an oracle mapping the input
string to the literal Python value it decodes to, or `none` when evaluation
raises (any parse failure — the source catches every exception). -/

/-- A Python literal value as produced by `ast.literal_eval`. -/
inductive PyLit where
  | str : String → PyLit
  | intLit : Int → PyLit
  | listLit : List PyLit → PyLit
  | tupleLit : List PyLit → PyLit
  | noneLit : PyLit

/-- The `isinstance(v, str)` test combined with `str(v)` (the identity on
strings), as used in the comprehension of `parse_drug_terms`. -/
def PyLit.asStr : PyLit → Option String
  | .str s => some s
  | _ => none

/-- The `isinstance(value, (list, tuple))` test of `parse_drug_terms`. -/
def PyLit.isSeq : PyLit → Bool
  | .listLit _ => true
  | .tupleLit _ => true
  | _ => false

/-- Embedding of `parse_drug_terms` (src/indicator.py lines 16-24): literal-
evaluate the drug field; when it decodes to a list or tuple, keep its string
elements in order; on any parse failure or non-sequence result, fall back to
the single-element list holding the original string. Exhaustive `match` makes
the never-raises contract structural. -/
def parse_drug_terms (literal_eval : String → Option PyLit)
    (drug_entry : String) : List String :=
  match literal_eval drug_entry with
  | some (PyLit.listLit vs) => vs.filterMap PyLit.asStr
  | some (PyLit.tupleLit vs) => vs.filterMap PyLit.asStr
  | _ => [drug_entry]

/-- C5. Drug-term parser: for every behavior of the literal-evaluation
collaborator, if the input decodes to a list or tuple the parser returns that
sequence's string elements in their original order (`List.filterMap` keeps
order); on parse failure (`none`) or a non-sequence decode result it returns
the single-element list containing the original input unchanged. The function
is total, so it never raises. -/
theorem parse_drug_terms_spec (literal_eval : String → Option PyLit) (s : String) :
    (literal_eval s = none → parse_drug_terms literal_eval s = [s]) ∧
    (∀ v, literal_eval s = some v →
      (v.isSeq = false → parse_drug_terms literal_eval s = [s]) ∧
      (∀ vs, v = PyLit.listLit vs ∨ v = PyLit.tupleLit vs →
        parse_drug_terms literal_eval s = vs.filterMap PyLit.asStr)) := by
  constructor
  · intro h
    unfold parse_drug_terms
    rw [h]
  · intro v hv
    constructor
    · intro hseq
      unfold parse_drug_terms
      rw [hv]
      cases v with
      | str t => rfl
      | intLit n => rfl
      | listLit vs => exact absurd hseq (by simp [PyLit.isSeq])
      | tupleLit vs => exact absurd hseq (by simp [PyLit.isSeq])
      | noneLit => rfl
    · rintro vs (rfl | rfl) <;> · unfold parse_drug_terms
                                  rw [hv]

/-- Witness for C5 at the spec's Scenario 4: a drug field decoding to the
tuple `(Gleevec, Imatinib)` yields both names in order, and an undecodable
field falls back to itself. -/
theorem parse_drug_terms_spec_witness :
    parse_drug_terms
        (fun _ => some (PyLit.tupleLit [PyLit.str "Gleevec", PyLit.str "Imatinib"]))
        "a tuple-valued drug field" = ["Gleevec", "Imatinib"] ∧
    parse_drug_terms (fun _ => none) "Imatinib" = ["Imatinib"] := by
  constructor
  · have h := ((parse_drug_terms_spec
      (fun _ => some (PyLit.tupleLit [PyLit.str "Gleevec", PyLit.str "Imatinib"]))
      "a tuple-valued drug field").2
      (PyLit.tupleLit [PyLit.str "Gleevec", PyLit.str "Imatinib"]) rfl).2
      [PyLit.str "Gleevec", PyLit.str "Imatinib"] (Or.inr rfl)
    rw [h]
    rfl
  · exact (parse_drug_terms_spec (fun _ => none) "Imatinib").1 rfl

/-! ## Batch runner (src/indicator.py lines 157-235)

The pure per-row content of `generate_indicators` and
`generate_interaction_evidence`: which scorer is invoked, which result entry
is appended, and which fieldnames the CSV writer is given. File IO, the
progress bars and the zip archiving are outside the embedding. -/

/-- A corpus row: identifier, text, and the two optional pre-tagged columns
(`none` models the column being absent from the dataframe, so that the Python
lookup `row[...]` raises `KeyError`). -/
structure CorpusRow where
  pmid : String
  abstract : String
  drug_labels : Option String
  drug_ids : Option String
deriving DecidableEq, Repr

/-- The guarded lookup of the optional columns in `generate_indicators`
(src/indicator.py lines 206-211): `try` both lookups, and on any failure set
both values to `None`. -/
def corpusLookupTagged (row : CorpusRow) : Option String × Option String :=
  match row.drug_labels, row.drug_ids with
  | some t, some c => (some t, some c)
  | _, _ => (none, none)

/-- A result entry as appended by `generate_indicators` (lines 216-219): a
five-key dict when the label is truthy, a three-key dict otherwise. -/
inductive Entry where
  | full (pmid label : String) (scores : ScoreValue) (tagged_drugs concepts : Option String)
  | short (pmid label : String) (scores : ScoreValue)
deriving DecidableEq, Repr

/-- The entry-shape branch `if label: ... else: ...` of lines 216-219; a
Python string is truthy exactly when it is non-empty. -/
def mkResultEntry (pmid label : String) (scores : ScoreValue)
    (tagged concepts : Option String) : Entry :=
  if label ≠ "" then Entry.full pmid label scores tagged concepts
  else Entry.short pmid label scores

/-- The fieldnames branch `if label: ... else: ...` of the CSV writer
(lines 226-229). -/
def resultFieldnames (label : String) : List String :=
  if label ≠ "" then ["pmid", "label", "scores", "tagged_drugs", "concepts"]
  else ["pmid", "label", "scores"]

/-- Number of parameters in the signature of `analyze_relation_interaction`
(src/indicator.py line 108: `def analyze_relation_interaction(gene, abstract)`). -/
def analyze_relation_interaction_arity : Nat := 2

/-- The call `analyze_relation_interaction(drug[0], gene, abstract)` at
src/indicator.py line 213: Python applies three positional arguments to the
two-parameter function, which raises `TypeError` at the call site before the
scorer body runs. The arity test makes that explicit; were the arities to
match, the arguments would bind in order. -/
def call_analyze_relation_interaction_3 (nlp : String → List SpacyToken)
    (a b c : String) : Except String (String × InteractionScores) :=
  if 3 = analyze_relation_interaction_arity then
    Except.ok (analyze_relation_interaction nlp a b)
  else
    Except.error
      "TypeError: analyze_relation_interaction() takes 2 positional arguments but 3 were given"

/-- One iteration of the inner abstract loop of `generate_indicators`
(src/indicator.py lines 201-231): read the optional columns with the guarded
lookup, dispatch on `mode`, and build the appended entry together with the
fieldnames handed to the CSV writer for this iteration. -/
def generate_indicators_step (nlp : String → List SpacyToken)
    (mode drug0 gene : String) (row : CorpusRow) :
    Except String (Entry × List String) :=
  let tc := corpusLookupTagged row
  if mode = "interaction" then
    match call_analyze_relation_interaction_3 nlp drug0 gene row.abstract with
    | Except.error e => Except.error e
    | Except.ok (label, scores) =>
      Except.ok (mkResultEntry row.pmid label (ScoreValue.interaction scores) tc.1 tc.2,
        resultFieldnames label)
  else
    match analyze_relation drug0 gene row.abstract with
    | (label, scores) =>
      Except.ok (mkResultEntry row.pmid label scores tc.1 tc.2, resultFieldnames label)

/-- The inner abstract loop of `generate_indicators`: process the rows in
order, propagating the first uncaught exception. -/
def processIndicatorRows (nlp : String → List SpacyToken)
    (mode drug0 gene : String) : List CorpusRow → Except String (List (Entry × List String))
  | [] => Except.ok []
  | r :: rs =>
    match generate_indicators_step nlp mode drug0 gene r with
    | Except.error e => Except.error e
    | Except.ok x =>
      match processIndicatorRows nlp mode drug0 gene rs with
      | Except.error e => Except.error e
      | Except.ok xs => Except.ok (x :: xs)

/-- Python slice semantics of `xs[start:stop]` with unit step, as used by
`abstracts.iloc[start:stop]`: negative endpoints count from the end, and both
endpoints clamp to the list bounds. -/
def pySliceList {α : Type} (xs : List α) (start stop : Int) : List α :=
  let n : Int := (xs.length : Int)
  let lo : Nat := (if start < 0 then start + n else start).toNat.min xs.length
  let hi : Nat := (if stop < 0 then stop + n else stop).toNat.min xs.length
  (xs.take hi).drop lo

/-- Default `start` of `generate_indicators` (src/indicator.py line 189). -/
def generate_indicators_default_start : Int := 0

/-- Default `stop` of `generate_indicators` (src/indicator.py line 189). -/
def generate_indicators_default_stop : Int := -1

/-- Default `start` of `generate_interaction_evidence` (line 157). -/
def generate_interaction_evidence_default_start : Int := 0

/-- Default `stop` of `generate_interaction_evidence` (line 157). -/
def generate_interaction_evidence_default_stop : Int := -1

/-- Processing of one reference pair by `generate_indicators`
(src/indicator.py lines 195-231): re-derive the drug list from the drug
field, take its first element (an `IndexError` if the parse produced an empty
sequence), and run the sliced abstract corpus through the per-row step. -/
def generate_indicators_pair (nlp : String → List SpacyToken)
    (literal_eval : String → Option PyLit) (gene drugField mode : String)
    (abstracts : List CorpusRow) (start stop : Int) :
    Except String (List (Entry × List String)) :=
  match parse_drug_terms literal_eval drugField with
  | [] => Except.error "IndexError: list index out of range"
  | drug0 :: _ => processIndicatorRows nlp mode drug0 gene (pySliceList abstracts start stop)

/-- A result entry as appended by `generate_interaction_evidence`
(src/indicator.py line 172): six keys, abstract included, with the two tagged
columns read unguarded. -/
structure InteractionEntry where
  pmid : String
  abstract : String
  label : String
  scores : InteractionScores
  tagged_drugs : String
  concepts : String
deriving DecidableEq, Repr

/-- One iteration of the abstract loop of `generate_interaction_evidence`
(src/indicator.py lines 164-172). The lookups `row['DRUG_LABELS']` and
`row['DRUG_IDS']` are not wrapped in `try`, so a missing column raises
`KeyError` out of the loop. -/
def generate_interaction_evidence_step (nlp : String → List SpacyToken)
    (gene : String) (row : CorpusRow) : Except String InteractionEntry :=
  match row.drug_labels with
  | none => Except.error "KeyError: DRUG_LABELS"
  | some tagged_drugs =>
    match row.drug_ids with
    | none => Except.error "KeyError: DRUG_IDS"
    | some concept =>
      match analyze_relation_interaction nlp gene row.abstract with
      | (label, scores) =>
        Except.ok
          { pmid := row.pmid, abstract := row.abstract, label := label,
            scores := scores, tagged_drugs := tagged_drugs, concepts := concept }

/-- The abstract loop of `generate_interaction_evidence` over the sliced
corpus (src/indicator.py lines 163-172). -/
def processInteractionRows (nlp : String → List SpacyToken) (gene : String) :
    List CorpusRow → Except String (List InteractionEntry)
  | [] => Except.ok []
  | r :: rs =>
    match generate_interaction_evidence_step nlp gene r with
    | Except.error e => Except.error e
    | Except.ok x =>
      match processInteractionRows nlp gene rs with
      | Except.error e => Except.error e
      | Except.ok xs => Except.ok (x :: xs)

/-- Result accumulation of `generate_interaction_evidence`
(src/indicator.py lines 157-180). -/
def generate_interaction_evidence_results (nlp : String → List SpacyToken)
    (gene : String) (abstracts : List CorpusRow) (start stop : Int) :
    Except String (List InteractionEntry) :=
  processInteractionRows nlp gene (pySliceList abstracts start stop)

/-- Every label `analyze_relation` produces is a non-empty string, so the
Python truthiness test `if label:` always takes the truthy branch. -/
theorem analyze_relation_label_ne_empty (drug gene abstract : String) :
    (analyze_relation drug gene abstract).1 ≠ "" := by
  unfold analyze_relation
  dsimp only
  split
  · decide
  · dsimp only
    split <;> decide

/-- C4 (failing input). With `mode = 'interaction'`, the batch runner's
dispatch calls `analyze_relation_interaction` with three positional arguments
against its two-parameter signature, so the first sliced abstract raises
`TypeError` and no result entry is appended, for any reference pair. -/
theorem generate_indicators_interaction_mode_raises :
    generate_indicators_pair (fun _ => []) (fun _ => none) "EGFR" "gefitinib" "interaction"
      [{ pmid := "1", abstract := "first abstract", drug_labels := none, drug_ids := none },
       { pmid := "2", abstract := "second abstract", drug_labels := none, drug_ids := none }]
      generate_indicators_default_start generate_indicators_default_stop =
    Except.error
      "TypeError: analyze_relation_interaction() takes 2 positional arguments but 3 were given" := by
  rfl

/-- C6 (counterexample). On a corpus row lacking both optional columns,
`generate_interaction_evidence` propagates the lookup failure as an error
rather than tolerating it, and `generate_indicators` still hands the CSV
writer the five fieldnames including `tagged_drugs` and `concepts` even
though the columns are unavailable — the fieldnames do not vary with column
availability. -/
theorem optional_columns_counterexample :
    generate_interaction_evidence_step (fun _ => []) "EGFR"
      { pmid := "1", abstract := "some text", drug_labels := none, drug_ids := none } =
      Except.error "KeyError: DRUG_LABELS" ∧
    generate_indicators_step (fun _ => []) "clinical" "drugx" "genex"
      { pmid := "1", abstract := "some text", drug_labels := none, drug_ids := none } =
      Except.ok (Entry.full "1" "not_evaluated" ScoreValue.floatZero none none,
        ["pmid", "label", "scores", "tagged_drugs", "concepts"]) :=
  ⟨rfl, rfl⟩

/-- When either optional column is missing, the guarded lookup of
`generate_indicators` yields `None` for both values. -/
theorem corpusLookupTagged_none (row : CorpusRow)
    (hmiss : row.drug_labels = none ∨ row.drug_ids = none) :
    corpusLookupTagged row = (none, none) := by
  unfold corpusLookupTagged
  rcases hmiss with h | h
  · rw [h]
  · rw [h]
    cases hdl : row.drug_labels <;> rfl

/-- C6 (amended). In `generate_indicators`, absence of the optional
`DRUG_LABELS` / `DRUG_IDS` columns is tolerated via the caught lookup
failure — both values become `None` and no error is propagated — but the
output fieldnames do not vary with column availability: the writer branches
on the label string, which is always non-empty, so the `tagged_drugs` and
`concepts` fields are always written. (In `generate_interaction_evidence` the
lookup is unguarded and absence raises, per the counterexample.) -/
theorem generate_indicators_optional_columns (nlp : String → List SpacyToken)
    (mode drug0 gene : String) (row : CorpusRow)
    (hmiss : row.drug_labels = none ∨ row.drug_ids = none)
    (hmode : mode ≠ "interaction") :
    generate_indicators_step nlp mode drug0 gene row =
      Except.ok (Entry.full row.pmid (analyze_relation drug0 gene row.abstract).1
          (analyze_relation drug0 gene row.abstract).2 none none,
        ["pmid", "label", "scores", "tagged_drugs", "concepts"]) := by
  have hne := analyze_relation_label_ne_empty drug0 gene row.abstract
  unfold generate_indicators_step
  rw [if_neg hmode]
  rw [corpusLookupTagged_none row hmiss]
  rcases hp : analyze_relation drug0 gene row.abstract with ⟨label, scores⟩
  rw [hp] at hne
  dsimp only
  unfold mkResultEntry resultFieldnames
  rw [if_pos hne, if_pos hne]

/-- Witness for the amended C6: a concrete row with an absent `DRUG_LABELS`
column is processed without error, with `None` in both tagged fields and the
five-name fieldnames. -/
theorem generate_indicators_optional_columns_witness :
    generate_indicators_step (fun _ => []) "clinical" "gefitinib" "EGFR"
      { pmid := "7", abstract := "gefitinib and egfr in a clinical trial",
        drug_labels := none, drug_ids := some "X" } =
      Except.ok (Entry.full "7"
          (analyze_relation "gefitinib" "EGFR" "gefitinib and egfr in a clinical trial").1
          (analyze_relation "gefitinib" "EGFR" "gefitinib and egfr in a clinical trial").2
          none none,
        ["pmid", "label", "scores", "tagged_drugs", "concepts"]) :=
  generate_indicators_optional_columns (fun _ => []) "clinical" "gefitinib" "EGFR"
    { pmid := "7", abstract := "gefitinib and egfr in a clinical trial",
      drug_labels := none, drug_ids := some "X" }
    (Or.inl rfl) (by decide)

/-- Python `xs[0:-1]` is the list with its final element removed. -/
theorem pySliceList_zero_neg_one {α : Type} (xs : List α) :
    pySliceList xs 0 (-1) = xs.dropLast := by
  unfold pySliceList
  dsimp only
  have h0 : ((if (0 : Int) < 0 then 0 + (xs.length : Int) else 0).toNat.min xs.length) = 0 := by
    rw [if_neg (by omega)]
    simp
  have h1 : ((if (-1 : Int) < 0 then -1 + (xs.length : Int) else -1).toNat.min xs.length) =
      xs.length - 1 := by
    rw [if_pos (by omega)]
    have h2 : ((-1 : Int) + (xs.length : Int)).toNat = xs.length - 1 := by omega
    rw [h2]
    exact Nat.min_eq_left (Nat.sub_le _ _)
  rw [h0, h1, List.drop_zero, List.dropLast_eq_take]

/-- An error-free run of the indicator row loop yields one entry per
processed row. -/
theorem processIndicatorRows_ok_length (nlp : String → List SpacyToken)
    (mode drug0 gene : String) (rows : List CorpusRow)
    (out : List (Entry × List String))
    (h : processIndicatorRows nlp mode drug0 gene rows = Except.ok out) :
    out.length = rows.length := by
  induction rows generalizing out with
  | nil =>
    unfold processIndicatorRows at h
    cases h
    rfl
  | cons r rs ih =>
    unfold processIndicatorRows at h
    cases hstep : generate_indicators_step nlp mode drug0 gene r with
    | error e =>
      rw [hstep] at h
      cases h
    | ok x =>
      rw [hstep] at h
      cases hrec : processIndicatorRows nlp mode drug0 gene rs with
      | error e =>
        rw [hrec] at h
        cases h
      | ok xs =>
        rw [hrec] at h
        cases h
        simp [ih xs hrec]

/-- An error-free run of the interaction row loop yields one entry per
processed row. -/
theorem processInteractionRows_ok_length (nlp : String → List SpacyToken)
    (gene : String) (rows : List CorpusRow) (out : List InteractionEntry)
    (h : processInteractionRows nlp gene rows = Except.ok out) :
    out.length = rows.length := by
  induction rows generalizing out with
  | nil =>
    unfold processInteractionRows at h
    cases h
    rfl
  | cons r rs ih =>
    unfold processInteractionRows at h
    cases hstep : generate_interaction_evidence_step nlp gene r with
    | error e =>
      rw [hstep] at h
      cases h
    | ok x =>
      rw [hstep] at h
      cases hrec : processInteractionRows nlp gene rs with
      | error e =>
        rw [hrec] at h
        cases h
      | ok xs =>
        rw [hrec] at h
        cases h
        simp [ih xs hrec]

/-- C10. With the default arguments `start=0`, `stop=-1`, both batch runners
iterate `abstracts.iloc[0:-1]`: the slice is the corpus with its final row
removed, so for a non-empty corpus the last abstract is never scored and an
error-free run appends exactly `length - 1` result entries; an explicit
`stop` is needed to cover the whole corpus. -/
theorem default_slice_excludes_final_abstract (xs : List CorpusRow) :
    pySliceList xs generate_indicators_default_start generate_indicators_default_stop =
      xs.dropLast ∧
    pySliceList xs generate_interaction_evidence_default_start
      generate_interaction_evidence_default_stop = xs.dropLast ∧
    (xs ≠ [] →
      (pySliceList xs generate_indicators_default_start
        generate_indicators_default_stop).length = xs.length - 1 ∧
      xs.length - 1 < xs.length) ∧
    (∀ nlp literal_eval gene drugField mode out,
      generate_indicators_pair nlp literal_eval gene drugField mode xs
        generate_indicators_default_start generate_indicators_default_stop = Except.ok out →
      out.length = xs.length - 1) ∧
    (∀ nlp gene out,
      generate_interaction_evidence_results nlp gene xs
        generate_interaction_evidence_default_start
        generate_interaction_evidence_default_stop = Except.ok out →
      out.length = xs.length - 1) := by
  simp only [generate_indicators_default_start, generate_indicators_default_stop,
    generate_interaction_evidence_default_start, generate_interaction_evidence_default_stop]
  have hslice : pySliceList xs (0 : Int) (-1 : Int) = xs.dropLast :=
    pySliceList_zero_neg_one xs
  refine ⟨hslice, hslice, ?_, ?_, ?_⟩
  · intro hne
    rw [hslice, List.length_dropLast]
    refine ⟨rfl, ?_⟩
    have : xs.length ≠ 0 := by
      intro h0
      exact hne (List.length_eq_zero.mp h0)
    omega
  · intro nlp literal_eval gene drugField mode out h
    unfold generate_indicators_pair at h
    cases hparse : parse_drug_terms literal_eval drugField with
    | nil =>
      rw [hparse] at h
      cases h
    | cons drug0 rest =>
      rw [hparse] at h
      have := processIndicatorRows_ok_length nlp mode drug0 gene _ out h
      rw [this, hslice, List.length_dropLast]
  · intro nlp gene out h
    unfold generate_interaction_evidence_results at h
    have := processInteractionRows_ok_length nlp gene _ out h
    rw [this, hslice, List.length_dropLast]

/-! ## Aggregation (src/score.py lines 6-98)

`load_pmid_assessments` concatenates the CSV files extracted from a result
archive. `pandas.read_csv` is an external collaborator: the oracle `read`
maps a file path and an encoding to the parsed dataframe, or `none` when that
attempt fails (decode error, empty data, parser error, or a zero-column
parse — all caught by the same handler). Dataframes themselves are an
abstract type `Df`; the column assignments `tdf["gene"] = ...` etc. are the
oracle `withMeta`. Zip extraction and directory scanning are outside the
embedding: `files` is the sorted CSV file list the source discovered. -/

/-- A discovered CSV file: its path, its basename (used to derive the gene
and drug), and its size in bytes (`fpath.stat().st_size`). -/
structure CsvFile where
  path : String
  name : String
  size : Nat
deriving DecidableEq, Repr

/-- The encoding fallback list of src/score.py line 34. -/
def encodings_to_try : List String := ["utf-8", "utf-8-sig", "utf-16", "latin1"]

/-- The per-file encoding loop (src/score.py lines 45-61): try each encoding
in order and keep the first successful parse. -/
def tryEncodings {Df : Type} (read : String → String → Option Df) :
    List String → String → Option Df
  | [], _ => none
  | enc :: rest, fpath =>
    match read fpath enc with
    | some tdf => some tdf
    | none => tryEncodings read rest fpath

/-- The filename step `name = fpath.name.rsplit(".", 1)[0]` (line 68): drop
everything after the last dot, or keep the whole name when it has none. -/
def stripExt (name : String) : String :=
  match name.splitOn "." with
  | [] => name
  | [_] => name
  | parts => String.intercalate "." parts.dropLast

/-- The derivation `parts = name.split("_", 1)` with the two-element and
fallback cases (src/score.py lines 69-74). -/
def deriveGeneDrug (name : String) : String × String :=
  match (stripExt name).splitOn "_" with
  | [] => (stripExt name, "")
  | [g] => (g, "")
  | g :: rest => (g, String.intercalate "_" rest)

/-- Modeled text standing for `repr(last_err)` of src/score.py line 64 — the
representation of the final pandas exception, whose content comes from the
external collaborator. -/
def parseFailureRepr : String := "unreadable under every attempted encoding"

/-- The main file loop of `load_pmid_assessments` (src/score.py lines 36-79):
accumulate, in file order, the successfully loaded (and meta-tagged)
dataframes and the `(path, reason)` failure records. -/
def loadLoop {Df : Type} (read : String → String → Option Df)
    (withMeta : Df → String → String → String → Df) (search_method : String) :
    List CsvFile → List Df × List (String × String)
  | [] => ([], [])
  | f :: rest =>
    if f.size = 0 then
      ((loadLoop read withMeta search_method rest).1,
       (f.path, "empty file") :: (loadLoop read withMeta search_method rest).2)
    else
      match tryEncodings read encodings_to_try f.path with
      | none =>
        ((loadLoop read withMeta search_method rest).1,
         (f.path, parseFailureRepr) :: (loadLoop read withMeta search_method rest).2)
      | some tdf =>
        (withMeta tdf (deriveGeneDrug f.name).1 (deriveGeneDrug f.name).2 search_method ::
            (loadLoop read withMeta search_method rest).1,
         (loadLoop read withMeta search_method rest).2)

/-- The error message of src/score.py lines 83-86, built from the first five
failures. -/
def noCsvMessage (failures : List (String × String)) : String :=
  "No CSVs could be loaded. Examples of failures: " ++
    String.intercalate "; " ((failures.take 5).map (fun pe => pe.1 ++ " -> " ++ pe.2))

/-- Embedding of `load_pmid_assessments` (src/score.py lines 6-98): run the
file loop, raise `RuntimeError` when nothing loaded, otherwise return the
loaded frames (`pd.concat(dfs, ignore_index=True)` of the external
collaborator, modeled as the ordered list of loaded frames) while skipped
files are merely printed. -/
def load_pmid_assessments {Df : Type} (read : String → String → Option Df)
    (withMeta : Df → String → String → String → Df) (search_method : String)
    (files : List CsvFile) : Except String (List Df) :=
  let dfs := (loadLoop read withMeta search_method files).1
  if dfs.isEmpty then
    Except.error (noCsvMessage (loadLoop read withMeta search_method files).2)
  else
    Except.ok dfs

/-- A file contributes no dataframe exactly when it is empty or unreadable
under every attempted encoding. -/
theorem loadLoop_dfs_empty_iff {Df : Type} (read : String → String → Option Df)
    (withMeta : Df → String → String → String → Df) (search_method : String)
    (files : List CsvFile) :
    (loadLoop read withMeta search_method files).1 = [] ↔
      ∀ f ∈ files, f.size = 0 ∨ tryEncodings read encodings_to_try f.path = none := by
  induction files with
  | nil => simp [loadLoop]
  | cons f rest ih =>
    unfold loadLoop
    by_cases hs : f.size = 0
    · rw [if_pos hs]
      simp [hs, ih]
    · rw [if_neg hs]
      cases htry : tryEncodings read encodings_to_try f.path with
      | none => simp [hs, htry, ih]
      | some tdf => simp [hs, htry]

/-- C7. Aggregation failure semantics: `load_pmid_assessments` raises exactly
when zero of the discovered CSV files can be loaded (every candidate is empty
or fails under every attempted encoding); the raised message summarizes at
most the first five per-file failures; and whenever at least one CSV loads,
the function returns the loaded frames instead of raising. -/
theorem load_pmid_assessments_failure_semantics {Df : Type}
    (read : String → String → Option Df)
    (withMeta : Df → String → String → String → Df) (search_method : String)
    (files : List CsvFile) :
    ((∃ e, load_pmid_assessments read withMeta search_method files = Except.error e) ↔
      ∀ f ∈ files, f.size = 0 ∨ tryEncodings read encodings_to_try f.path = none) ∧
    (∀ e, load_pmid_assessments read withMeta search_method files = Except.error e →
      e = noCsvMessage (loadLoop read withMeta search_method files).2 ∧
      ((loadLoop read withMeta search_method files).2.take 5).length ≤ 5) ∧
    ((∃ f ∈ files, ¬(f.size = 0 ∨ tryEncodings read encodings_to_try f.path = none)) →
      load_pmid_assessments read withMeta search_method files =
        Except.ok (loadLoop read withMeta search_method files).1) := by
  unfold load_pmid_assessments
  dsimp only
  by_cases hempty : (loadLoop read withMeta search_method files).1 = []
  · rw [if_pos (List.isEmpty_iff.mpr hempty)]
    refine ⟨?_, ?_, ?_⟩
    · constructor
      · intro _
        exact (loadLoop_dfs_empty_iff read withMeta search_method files).mp hempty
      · intro _
        exact ⟨noCsvMessage (loadLoop read withMeta search_method files).2, rfl⟩
    · intro e he
      cases he
      refine ⟨rfl, ?_⟩
      rw [List.length_take]
      omega
    · intro hex
      rcases hex with ⟨f, hf, hnf⟩
      exact absurd ((loadLoop_dfs_empty_iff read withMeta search_method files).mp hempty f hf) hnf
  · rw [if_neg (fun hc => hempty (List.isEmpty_iff.mp hc))]
    refine ⟨?_, ?_, ?_⟩
    · constructor
      · rintro ⟨e, he⟩
        cases he
      · intro hall
        exact absurd ((loadLoop_dfs_empty_iff read withMeta search_method files).mpr hall) hempty
    · intro e he
      cases he
    · intro _
      rfl
